import Mathlib

/-
Verification of trader-analytics-mvp against its specification.

Shallow embedding of the core pipeline:
  - src/data_sources/binance_ws.py : message parsing, session loop, reconnect backoff
  - src/analytics/pairs.py         : resample_ohlcv, compute_beta_ols,
                                     compute_pairs_analytics, adf_test_on_spread
  - src/api/main.py                : _ticks_to_df, alert_loop

Modelling conventions:
  - Python float64 values are modelled as exact rationals (ℚ).  IEEE special
    values NaN / +inf / -inf are modelled explicitly by the type FV, and
    float division by an FV-producing operation follows IEEE semantics
    (x/0 = ±inf for x ≠ 0, 0/0 = NaN).
  - numpy.log and math.sqrt are transcendental, so they are taken as
    function parameters (logQ, sqrtQ : ℚ → ℚ); theorems that need facts
    about sqrt state them as hypotheses (sqrtQ 0 = 0, positivity).
  - Python exceptions are modelled with Except PyErr; a function that can
    raise returns Except PyErr α, and an uncaught exception propagates.
-/

namespace TraderMVP

/-- Python exception kinds that the embedded code can raise. -/
inductive PyErr
  | indexError
  | typeError
  | valueError
  deriving DecidableEq

/-- An IEEE-754 double as seen by this code: a finite (exact rational)
value, one of the two infinities, or NaN. -/
inductive FV
  | num (q : ℚ)
  | pinf
  | ninf
  | nan
  deriving DecidableEq

/-- IEEE float division producing an FV: finite quotient when the
denominator is nonzero, ±inf for x/0 with x ≠ 0, NaN for 0/0. -/
def fdiv (x y : ℚ) : FV :=
  if y ≠ 0 then .num (x / y)
  else if 0 < x then .pinf
  else if x < 0 then .ninf
  else .nan

/-- True on finite float values (not NaN, not ±inf). -/
def FV.isNum : FV → Bool
  | .num _ => true
  | _ => false

/-! ## Ingestion Service — src/data_sources/binance_ws.py -/

/-- A field of the decoded JSON object that the code passes to float():
absent (data.get returns None), present but not numeric, or a number. -/
inductive FloatField
  | missing
  | notNum
  | val (q : ℚ)
  deriving DecidableEq

/-- The fields stream_trades reads from a decoded trade message. -/
structure RawFields where
  E : Option ℤ
  s : Option String
  p : FloatField
  q : FloatField
  deriving DecidableEq

/-- An inbound feed message: either json.loads fails on it, or it decodes
to an object with the fields above. -/
inductive RawMsg
  | badJson
  | msg (f : RawFields)
  deriving DecidableEq

/-- A normalized tick as built in stream_trades (binance_ws.py lines 33-39). -/
structure Tick where
  ts_ms : ℤ
  ts_iso : String
  symbol : String
  price : ℚ
  size : ℚ
  deriving DecidableEq

/-- Python float() applied to data.get("p") / data.get("q"):
float(None) raises TypeError, float(non-numeric string) raises ValueError. -/
def pyFloat : FloatField → Except PyErr ℚ
  | .missing => .error .typeError
  | .notNum => .error .valueError
  | .val q => .ok q

/-- Parsing of one inbound message, binance_ws.py lines 23-39.
json.loads failure raises (JSONDecodeError is a ValueError); then
ts_ms = int(data.get("E") or now) (0 and None both fall back to now),
symbol = str(data.get("s") or "").lower(), price/size via float().
isoFn stands for datetime-based iso_now_ms. -/
def parseTrade (now : ℤ) (isoFn : ℤ → String) : RawMsg → Except PyErr Tick
  | .badJson => .error .valueError
  | .msg f => do
      let ts : ℤ := match f.E with
        | some e => if e ≠ 0 then e else now
        | none => now
      let sym : String := (f.s.getD "").toLower
      let p ← pyFloat f.p
      let sz ← pyFloat f.q
      .ok { ts_ms := ts, ts_iso := isoFn ts, symbol := sym, price := p, size := sz }

/-- One connected session: the async-for body of stream_trades (lines 22-39).
Messages are processed in order; each parsed tick is handed to the sink
(await on_tick).  There is no try/except inside the loop, so the first
exception — from parsing or from the sink — escapes the async-for and ends
the session; the remaining messages of the connection are not processed.
Returns the ticks passed to the sink and the escaping exception, if any. -/
def runSession (now : ℤ) (isoFn : ℤ → String) (sink : Tick → Except PyErr Unit) :
    List RawMsg → List Tick × Option PyErr
  | [] => ([], none)
  | m :: ms =>
      match parseTrade now isoFn m with
      | .error e => ([], some e)
      | .ok t =>
          match sink t with
          | .error e => ([t], some e)
          | .ok _ =>
              let r := runSession now isoFn sink ms
              (t :: r.1, r.2)

/-- One outer-loop iteration of stream_trades as it affects the backoff
(lines 16-43): on a successful connect the backoff is reset to 1 (line 21)
before the session eventually dies; every iteration ends in the except
branch, which sleeps the current backoff and then doubles it, capped at 30
(lines 42-43).  Input: current backoff and whether the connect succeeded.
Output: (seconds slept this iteration, backoff for the next iteration). -/
def wsIter (b : ℕ) (connected : Bool) : ℕ × ℕ :=
  let b1 := if connected then 1 else b
  (b1, min (2 * b1) 30)

/-- The sleep durations of successive reconnect iterations, starting from
backoff b, given for each iteration whether its connect succeeded. -/
def wsWaits (b : ℕ) : List Bool → List ℕ
  | [] => []
  | c :: cs =>
      let r := wsIter b c
      r.1 :: wsWaits r.2 cs

/-! ## Pairs Analytics Engine — src/analytics/pairs.py -/

/-- One OHLCV bar row as consumed by compute_pairs_analytics (only the
close and volume columns are read). -/
structure BarRow where
  ts : ℤ
  close : ℚ
  volume : ℚ
  deriving DecidableEq

/-- One row of the aligned PairSeries built at pairs.py lines 24-29. -/
structure JoinRow where
  ts : ℤ
  a : ℚ
  b : ℚ
  vol_a : ℚ
  vol_b : ℚ
  deriving DecidableEq

/-- pandas index alignment plus dropna at pairs.py lines 24-29: keeps the
rows whose timestamp occurs in both bar series (inner join on ts). -/
def innerJoin (bxs bys : List BarRow) : List JoinRow :=
  bxs.filterMap (fun ra =>
    (bys.find? (fun rb => rb.ts == ra.ts)).map (fun rb =>
      { ts := ra.ts, a := ra.close, b := rb.close,
        vol_a := ra.volume, vol_b := rb.volume }))

/-- The rolling window of width w ending at position t (elements
t-w+1 .. t of the series; shorter at the start). -/
def windowAt (w : ℕ) (xs : List ℚ) (t : ℕ) : List ℚ :=
  (xs.take (t + 1)).drop (t + 1 - w)

/-- Arithmetic mean of a list of rationals. -/
def meanQ (l : List ℚ) : ℚ := l.sum / l.length

/-- Population variance (ddof = 0) of a list, as mean squared deviation. -/
def popVar (l : List ℚ) : ℚ :=
  (l.map (fun x => (x - meanQ l) ^ 2)).sum / l.length

/-- zscore[t] from pairs.py lines 38-40: rolling mean and rolling population
std (ddof = 0) of the spread over w samples; NaN while the window is not
full (pandas min_periods defaults to the window size, and an empty window
for w = 0 also yields NaN); the division by the std is IEEE float division
(fdiv), so the std being 0 gives NaN or ±inf depending on the numerator. -/
def zscoreAt (sqrtQ : ℚ → ℚ) (w : ℕ) (xs : List ℚ) (t : ℕ) : FV :=
  if w = 0 ∨ t + 1 < w then .nan
  else fdiv (xs.getD t 0 - meanQ (windowAt w xs t))
    (sqrtQ (popVar (windowAt w xs t)))

/-- Log returns, pairs.py lines 42-43: first difference of the log closes;
NaN (none) at position 0. -/
def retAt (lxs : List ℚ) (t : ℕ) : Option ℚ :=
  if t = 0 then none else some (lxs.getD t 0 - lxs.getD (t - 1) 0)

/-- Rolling Pearson correlation of the two return series over w samples,
pairs.py line 44.  NaN while the window does not hold w defined returns
(the return at position 0 is NaN, so the first defined output is at t = w);
otherwise cov / (std_a * std_b), written as population covariance over the
square root of the product of the population variances (equal to the pandas
ddof = 1 ratio, since the ddof factors cancel, and sqrt x * sqrt y =
sqrt (x * y)), with IEEE division: a zero-variance leg gives 0/0 = NaN. -/
def corrAt (sqrtQ : ℚ → ℚ) (w : ℕ) (la lb : List ℚ) (t : ℕ) : FV :=
  if w = 0 ∨ t < w then .nan
  else
    let ras := (List.range w).map (fun i => (retAt la (t - w + 1 + i)).getD 0)
    let rbs := (List.range w).map (fun i => (retAt lb (t - w + 1 + i)).getD 0)
    let cov := (List.zipWith
      (fun x y => (x - meanQ ras) * (y - meanQ rbs)) ras rbs).sum / (w : ℚ)
    fdiv cov (sqrtQ (popVar ras * popVar rbs))

/-- The column check done by statsmodels add_constant (has_constant defaults
to skip): a column with zero peak-to-peak (no variation) whose entries are
nonzero counts as an already-present constant column, and no intercept
column is added. -/
def isConstCol (xs : List ℚ) : Bool :=
  match xs with
  | [] => false
  | x :: r => (!(x == 0)) && r.all (fun y => y == x)

/-- OLS slope of regressing ys on xs with an intercept, in normal-equation
form: (n Σxy − Σx Σy) / (n Σx² − (Σx)²). -/
def olsSlope (ys xs : List ℚ) : ℚ :=
  let n : ℚ := xs.length
  (n * (List.zipWith (· * ·) xs ys).sum - xs.sum * ys.sum) /
    (n * (xs.map (fun x => x ^ 2)).sum - xs.sum ^ 2)

/-- compute_beta_ols, pairs.py lines 14-20: regress log prices of A on
[const, log prices of B] and return the slope (params[1]).  When log(B) is
a constant column, add_constant (default has_constant = skip) adds no
intercept column, the fitted model has a single parameter, and
model.params[1] raises IndexError. -/
def compute_beta_ols (la lb : List ℚ) : Except PyErr ℚ :=
  if isConstCol lb then .error .indexError
  else .ok (olsSlope la lb)

/-- One row of the final concatenated table built at pairs.py line 46. -/
structure OutRow where
  ts : ℤ
  a : ℚ
  b : ℚ
  vol_a : ℚ
  vol_b : ℚ
  spread : ℚ
  zscore : FV
  rolling_corr : FV
  deriving DecidableEq

/-- The stats dict returned by compute_pairs_analytics: either the
insufficient-data error dict of line 32, or the summary dict of lines 49-55. -/
inductive StatsRes
  | insufficient
  | stats (beta latest_spread : ℚ) (latest_zscore latest_corr : FV) (n : ℕ)
  deriving DecidableEq

/-- spread = log a − beta * log b, pairs.py line 35, as a series over the
joined rows. -/
def spreadSeries (logQ : ℚ → ℚ) (β : ℚ) (df : List JoinRow) : List ℚ :=
  df.map (fun r => logQ r.a - β * logQ r.b)

/-- The concatenated table of pairs.py line 46 before dropna: the joined
columns plus spread, zscore and rolling_corr at every position. -/
def allRows (logQ sqrtQ : ℚ → ℚ) (df : List JoinRow) (β : ℚ) (w : ℕ) :
    List OutRow :=
  let sp := spreadSeries logQ β df
  let la := df.map (fun r => logQ r.a)
  let lb := df.map (fun r => logQ r.b)
  (List.range df.length).map (fun t =>
    let r := df.getD t { ts := 0, a := 0, b := 0, vol_a := 0, vol_b := 0 }
    { ts := r.ts, a := r.a, b := r.b, vol_a := r.vol_a, vol_b := r.vol_b,
      spread := sp.getD t 0,
      zscore := zscoreAt sqrtQ w sp t,
      rolling_corr := corrAt sqrtQ w la lb t })

/-- pandas DataFrame.dropna on the concatenated table (pairs.py line 46):
drops the rows holding a NaN in any column.  Only the zscore and
rolling_corr columns can hold NaN; dropna does not drop ±inf. -/
def dropnaRows (rows : List OutRow) : List OutRow :=
  rows.filter (fun r => !(r.zscore == FV.nan) && !(r.rolling_corr == FV.nan))

/-- compute_pairs_analytics, pairs.py lines 22-56.  Returns the Python pair
(stats, table); exceptions propagate as Except.error.  Note that when the
final table is empty, latest = out.iloc[-1] at line 48 raises IndexError —
there is no insufficient-data return on that path. -/
def compute_pairs_analytics (logQ sqrtQ : ℚ → ℚ) (barsA barsB : List BarRow)
    (w : ℕ) : Except PyErr (StatsRes × Option (List OutRow)) :=
  let df := innerJoin barsA barsB
  if df.length < max 30 (w + 5) then .ok (.insufficient, none)
  else
    match compute_beta_ols (df.map (fun r => logQ r.a))
        (df.map (fun r => logQ r.b)) with
    | .error e => .error e
    | .ok β =>
        let out := dropnaRows (allRows logQ sqrtQ df β w)
        match out.getLast? with
        | none => .error .indexError
        | some last =>
            .ok (.stats β last.spread last.zscore last.rolling_corr out.length,
              some out)

/-! ## Stationarity Tester — src/analytics/pairs.py lines 58-66 -/

/-- The tuple returned by statsmodels adfuller (external library code). -/
structure ADFRaw where
  stat : ℚ
  pvalue : ℚ
  usedLag : ℕ
  nobs : ℕ
  crit : List (String × ℚ)
  deriving DecidableEq

/-- The dict built by adf_test_on_spread at pairs.py lines 60-66. -/
structure ADFDict where
  adf_stat : ℚ
  p_value : ℚ
  used_lag : ℕ
  nobs : ℕ
  crit_values : List (String × ℚ)
  deriving DecidableEq

/-- pandas Series.dropna: the defined values of the series, in order. -/
def dropnaQ (xs : List (Option ℚ)) : List ℚ := xs.filterMap id

/-- adf_test_on_spread, pairs.py lines 58-66: drops NaNs, calls statsmodels
adfuller (passed as a parameter — it is external library code), and
repackages the result tuple into a dict.  The function has no handling for
adfuller exceptions, and its return type has no insufficient-data value. -/
def adf_test_on_spread (adfullerF : List ℚ → Except PyErr ADFRaw)
    (spread : List (Option ℚ)) : Except PyErr ADFDict :=
  (adfullerF (dropnaQ spread)).map (fun r =>
    { adf_stat := r.stat, p_value := r.pvalue, used_lag := r.usedLag,
      nobs := r.nobs, crit_values := r.crit })

/-- Model of the external statsmodels adfuller contract used as a concrete
instance in witnesses: with autolag, the maximal lag order is derived from
the sample size, and adfuller raises ValueError when the sample is too
short for the lag selection; on long-enough input it returns the result
tuple.  Only the raise-on-short-input behavior matters to the claims. -/
def adfullerModel (xs : List ℚ) : Except PyErr ADFRaw :=
  if xs.length < 10 then .error .valueError
  else .ok { stat := 0, pvalue := 1, usedLag := 0, nobs := xs.length, crit := [] }

/-! ## Bars pipeline — src/api/main.py lines 45-64 with pairs.py lines 7-12 -/

/-- The kind of index a pandas frame carries: the default RangeIndex, or a
DatetimeIndex produced by set_index on a datetime column. -/
inductive IdxKind
  | range
  | datetime
  deriving DecidableEq

/-- A tick frame as built by _ticks_to_df: its index kind and its
(ts_ms, price, size) rows. -/
structure TickFrame where
  idx : IdxKind
  rows : List (ℤ × ℚ × ℚ)
  deriving DecidableEq

/-- A raw tick row from the store: (ts_ms, ts_iso, price, size). -/
structure TickRow where
  ts_ms : ℤ
  ts_iso : String
  price : ℚ
  size : ℚ
  deriving DecidableEq

/-- Embedding of _ticks_to_df, api/main.py lines 45-52: with no rows it returns
pd.DataFrame with columns price and size — an empty frame whose index is
the default RangeIndex, not a DatetimeIndex; otherwise it converts ts_ms
to a datetime index and sorts by it. -/
def ticks_to_df (rows : List TickRow) : TickFrame :=
  match rows with
  | [] => { idx := .range, rows := [] }
  | _ => { idx := .datetime,
           rows := (rows.map (fun r => (r.ts_ms, r.price, r.size))).mergeSort
             (fun x y => x.1 ≤ y.1) }

/-- The interval width in milliseconds of the pandas resample frequency
strings produced by TF_MAP (api/main.py line 16); any other frequency
string is outside what this code passes. -/
def tfWidthMs : String → Option ℤ
  | "1S" => some 1000
  | "1min" => some 60000
  | "5min" => some 300000
  | _ => none

/-- One OHLCV output row of resample_ohlcv. -/
structure OhlcvRow where
  ts : ℤ
  o : ℚ
  hi : ℚ
  lo : ℚ
  c : ℚ
  volume : ℚ
  deriving DecidableEq

/-- Maximum of a list of rationals (first element as base). -/
def maxD : List ℚ → ℚ
  | [] => 0
  | x :: r => r.foldl max x

/-- Minimum of a list of rationals (first element as base). -/
def minD : List ℚ → ℚ
  | [] => 0
  | x :: r => r.foldl min x

/-- resample_ohlcv, pairs.py lines 7-12, together with the pandas resample
index requirement: calling resample on a frame whose index is not a
DatetimeIndex / TimedeltaIndex / PeriodIndex raises TypeError — which is
exactly what happens on the RangeIndex frame that _ticks_to_df builds for
an empty row set.  On a datetime-indexed frame, ticks are partitioned into
wall-clock-aligned intervals of the frequency width; for each nonempty
interval: open, high, low, close of the prices and the sum of the sizes
(the all-NaN rows resample emits for empty intervals inside the range are
removed by the dropna at line 11). -/
def resample_ohlcv (f : TickFrame) (tf : String) : Except PyErr (List OhlcvRow) :=
  match tfWidthMs tf with
  | none => .error .valueError
  | some wMs =>
      if f.idx ≠ .datetime then .error .typeError
      else
        let start := fun (t : ℤ) => t - t % wMs
        let starts := (f.rows.map (fun r => start r.1)).dedup
        .ok (starts.map (fun s =>
          let g := f.rows.filter (fun r => start r.1 == s)
          let ps := g.map (fun r => r.2.1)
          { ts := s, o := ps.headD 0, hi := maxD ps, lo := minD ps,
            c := (ps.getLast?).getD 0,
            volume := (g.map (fun r => r.2.2)).sum }))

/-- The tick-to-bars path of the bars endpoint (api/main.py lines 54-64):
build the tick frame from the store rows, then resample it. -/
def ticksToBars (tf : String) (rows : List TickRow) : Except PyErr (List OhlcvRow) :=
  resample_ohlcv (ticks_to_df rows) tf

/-! ## Alert Evaluator — src/api/main.py lines 132-151 -/

/-- An alert rule row as read from the store (api/main.py line 138). -/
structure Rule where
  id : ℕ
  name : String
  a : String
  b : String
  tf : String
  window : ℕ
  threshold : ℚ
  enabled : Bool
  deriving DecidableEq

/-- An alert event as appended by log_alert_event (api/main.py line 148). -/
structure AlertEvent where
  ruleId : ℕ
  ts_ms : ℤ
  message : String
  deriving DecidableEq

/-- Python float comparison float(z) > float(threshold) at line 146 for a
possibly non-finite z: NaN compares False, +inf True, -inf False. -/
def fvGt (z : FV) (thr : ℚ) : Bool :=
  match z with
  | .num q => decide (thr < q)
  | .pinf => true
  | .ninf => false
  | .nan => false

/-- The decimal digits of the proper fraction r/d, most significant first,
up to fuel digits (stops early when the remainder reaches zero). -/
def decDigits (fuel r d : ℕ) : List ℕ :=
  match fuel, r with
  | 0, _ => []
  | _, 0 => []
  | f + 1, rr => ((rr * 10) / d) :: decDigits f ((rr * 10) % d) d

/-- Round a rational to the nearest integer, ties to even (the rounding
Python uses when formatting floats). -/
def roundHalfEven (q : ℚ) : ℤ :=
  let f := Int.floor q
  let r := q - f
  if r < 1 / 2 then f
  else if 1 / 2 < r then f + 1
  else if f % 2 = 0 then f else f + 1

/-- Three decimal digits with leading zeros, for the fractional part. -/
def padLeft3 (n : ℕ) : String :=
  if n < 10 then "00" ++ toString n
  else if n < 100 then "0" ++ toString n
  else toString n

/-- Python fixed three-decimal float formatting on a finite or non-finite
value: round to thousandths (ties to even) and print with exactly three
decimals; the IEEE specials print as nan, inf and -inf. -/
def fmt3 : FV → String
  | .nan => "nan"
  | .pinf => "inf"
  | .ninf => "-inf"
  | .num q =>
      let m := roundHalfEven (q * 1000)
      let sign := if m < 0 then "-" else ""
      let n := m.natAbs
      sign ++ toString (n / 1000) ++ "." ++ padLeft3 (n % 1000)

/-- Python str() of a float value, modelled on exact decimals: sign,
integer part, a decimal point, then the digits of the fractional part
(at least one digit, so integers print with a trailing zero, as Python
does).  The thresholds this code formats are short decimals. -/
def pyFloatStr (q : ℚ) : String :=
  let sign := if q < 0 then "-" else ""
  let n := q.num.natAbs
  let d := q.den
  let ds := decDigits 17 (n % d) d
  sign ++ toString (n / d) ++ "." ++
    (if ds.isEmpty then "0" else String.join (ds.map toString))

/-- The alert message f-string at api/main.py line 148: the rule name, the
z-score with fixed three-decimal formatting, and the threshold. -/
def alertMessage (name : String) (z : FV) (thr : ℚ) : String :=
  "ALERT: " ++ name ++ " | zscore=" ++ fmt3 z ++ " > " ++ pyFloatStr thr

/-- The evaluation of one rule inside a cycle, api/main.py lines 138-148.
env models the call pairs_analytics(a, b, tf, window, lookback) as seen
through res.get("stats"): it may raise (the error then propagates to the
per-cycle handler) or produce a stats dict.  Disabled rules are skipped;
an insufficient-data stats dict has no latest_zscore key, so z is None and
the rule is skipped; otherwise exactly one event is appended when
float(z) > float(threshold), and none otherwise. -/
def evalRule (env : Rule → Except PyErr StatsRes) (now : ℤ) (r : Rule) :
    Except PyErr (List AlertEvent) :=
  if !r.enabled then .ok []
  else
    match env r with
    | .error e => .error e
    | .ok .insufficient => .ok []
    | .ok (.stats _ _ z _ _) =>
        if fvGt z r.threshold then
          .ok [{ ruleId := r.id, ts_ms := now,
                 message := alertMessage r.name z r.threshold }]
        else .ok []

/-- One pass over the rules (the for loop at api/main.py lines 137-148),
as observed at the except handler of the cycle: rules are evaluated
sequentially, events appended before a failure persist, and the first
uncaught exception leaves the for loop — the remaining rules of the cycle
are not evaluated.  Returns the appended events and the exception that
reached the handler, if any. -/
def runRules (env : Rule → Except PyErr StatsRes) (now : ℤ) :
    List Rule → List AlertEvent × Option PyErr
  | [] => ([], none)
  | r :: rs =>
      match evalRule env now r with
      | .error e => ([], some e)
      | .ok evs =>
          let rest := runRules env now rs
          (evs ++ rest.1, rest.2)

/-- The infinite while-True of alert_loop (api/main.py lines 134-151),
restricted to its first cycles: each cycle runs with the rule list,
analytics environment and clock current at that cycle; the except handler
at lines 149-150 catches any exception a cycle raises, so every cycle
yields a result and the next cycle always runs. -/
def alert_loop (cycles : List ((Rule → Except PyErr StatsRes) × List Rule × ℤ)) :
    List (List AlertEvent × Option PyErr) :=
  cycles.map (fun cyc => runRules cyc.1 cyc.2.2 cyc.2.1)

deriving instance DecidableEq for Except

/-! ## Concrete inputs used in counterexamples and witnesses -/

/-- True exactly on a non-exceptional Except value. -/
def isOkE : Except PyErr α → Bool
  | .ok _ => true
  | .error _ => false

theorem isOkE_exists {x : Except PyErr α} (h : isOkE x = true) : ∃ v, x = .ok v := by
  cases x with
  | ok v => exact ⟨v, rfl⟩
  | error e => simp [isOkE] at h

/-- A well-formed trade message. -/
def goodMsg : RawMsg :=
  .msg { E := some 1000, s := some ("BTCUSDT"), p := .val 100, q := .val 2 }

/-- The tick goodMsg parses to (with the trivial iso formatter). -/
def goodTick : Tick :=
  { ts_ms := 1000, ts_iso := "", symbol := "btcusdt", price := 100, size := 2 }

/-- A message whose price field is absent: float(None) raises TypeError. -/
def noPriceMsg : RawMsg :=
  .msg { E := none, s := some ("ethusdt"), p := .missing, q := .val 1 }

/-- An enabled rule whose analytics call raises in envBoom. -/
def ruleBoom : Rule :=
  { id := 1, name := "r1", a := "btcusdt", b := "ethusdt", tf := "1m",
    window := 60, threshold := 2, enabled := true }

/-- An enabled rule whose analytics call succeeds in envBoom with a
triggering z-score. -/
def ruleOk : Rule :=
  { id := 2, name := "r2", a := "bnbusdt", b := "solusdt", tf := "1m",
    window := 60, threshold := 2, enabled := true }

/-- An analytics environment in which rule 1 raises and every other rule
gets a stats dict with latest z-score 2.5. -/
def envBoom : Rule → Except PyErr StatsRes := fun r =>
  if r.id = 1 then .error .indexError
  else .ok (.stats 1 0 (.num (5 / 2)) (.num 1) 40)

/-- An enabled rule with threshold 2. -/
def ruleT : Rule :=
  { id := 3, name := "pair", a := "btcusdt", b := "ethusdt", tf := "1m",
    window := 60, threshold := 2, enabled := true }

/-- An analytics environment returning a fixed latest z-score. -/
def envZ (z : FV) : Rule → Except PyErr StatsRes := fun _ =>
  .ok (.stats 1 0 z (.num 1) 40)

/-- Bars (35) with linearly increasing closes 1..35 at timestamps 0..34. -/
def barsLin : List BarRow :=
  (List.range 35).map (fun i => { ts := i, close := (i : ℚ) + 1, volume := 1 })

/-- Bars (35) whose closes are an exact affine image 2 + 3*close of barsLin:
under log = id the regression fits perfectly (beta = 3) and the spread is
the constant 2, so the rolling std is 0 at every full window. -/
def barsAff : List BarRow :=
  (List.range 35).map (fun i => { ts := i, close := 3 * ((i : ℚ) + 1) + 2, volume := 1 })

/-- Bars (35) with the constant close 5. -/
def barsConstA : List BarRow :=
  (List.range 35).map (fun i => { ts := i, close := 5, volume := 1 })

/-- Bars (35) with the constant close 7. -/
def barsConstB : List BarRow :=
  (List.range 35).map (fun i => { ts := i, close := 7, volume := 1 })

/-- Bars (35) with increasing, non-affine closes (period-2 wiggle). -/
def barsW1 : List BarRow :=
  (List.range 35).map (fun i =>
    { ts := i, close := (i : ℚ) + 1 + (if i % 2 = 0 then 0 else 1), volume := 1 })

/-- Bars (35) with increasing closes and a period-3 wiggle. -/
def barsW2 : List BarRow :=
  (List.range 35).map (fun i =>
    { ts := i, close := (i : ℚ) + 1 + (if i % 3 = 0 then (1 : ℚ) / 2 else 0), volume := 1 })

/-! ## Theorems -/

set_option maxRecDepth 1000000

/-- Helper for C6: one failed iteration turns backoff min(2^k,30) into
min(2^(k+1),30). -/
theorem nextWait_pow (k : ℕ) : min (2 * min (2 ^ k) 30) 30 = min (2 ^ (k + 1)) 30 := by
  have h2 : 2 ^ (k + 1) = 2 * 2 ^ k := by rw [pow_succ]; ring
  omega

/-- Helper for C6: over n consecutive failed iterations the waits from
backoff min(2^k,30) are min(2^(k+i),30). -/
theorem wsWaits_all_fail (n : ℕ) : ∀ k,
    wsWaits (min (2 ^ k) 30) (List.replicate n false) =
      (List.range n).map (fun i => min (2 ^ (k + i)) 30) := by
  induction n with
  | zero => intro k; rfl
  | succ n ih =>
      intro k
      rw [List.replicate_succ, List.range_succ_eq_map, List.map_cons, List.map_map]
      have hstep : wsWaits (min (2 ^ k) 30) (false :: List.replicate n false) =
          min (2 ^ k) 30 ::
            wsWaits (min (2 * min (2 ^ k) 30) 30) (List.replicate n false) := rfl
      rw [hstep, nextWait_pow, ih (k + 1)]
      have hf : ((fun i => min (2 ^ (k + i)) 30) ∘ Nat.succ) =
          fun i => min (2 ^ (k + 1 + i)) 30 := by
        funext i
        have h3 : k + Nat.succ i = k + 1 + i := by omega
        simp [Function.comp, h3]
      rw [hf]
      norm_num

/-- Helper for C6: from any backoff at most 30, every wait is at most 30. -/
theorem wsWaits_le (cs : List Bool) : ∀ b, b ≤ 30 → ∀ w ∈ wsWaits b cs, w ≤ 30 := by
  induction cs with
  | nil => intro b hb w hw; simp [wsWaits] at hw
  | cons c cs ih =>
      intro b hb w hw
      rw [show wsWaits b (c :: cs) =
        (wsIter b c).1 :: wsWaits (wsIter b c).2 cs from rfl, List.mem_cons] at hw
      rcases hw with h | h
      · subst h
        unfold wsIter
        dsimp only
        split <;> omega
      · refine ih (wsIter b c).2 ?_ w h
        unfold wsIter
        dsimp only
        omega

/-- Claim C6: in the reconnect loop of stream_trades, starting from a fresh
backoff of 1, the waits over n consecutive connection failures are
min(2^i, 30) — the doubling sequence 1, 2, 4, ... capped at 30 seconds;
starting from backoff 1 no wait of any run ever exceeds 30; and an
iteration whose connect succeeds resets the backoff, so its wait (and the
base for subsequent doubling) restarts at 1 second. -/
theorem c6_backoff_doubles_capped :
    (∀ n, wsWaits 1 (List.replicate n false) =
        (List.range n).map (fun i => min (2 ^ i) 30)) ∧
    (∀ cs, ∀ w ∈ wsWaits 1 cs, w ≤ 30) ∧
    (∀ b cs, wsWaits b (true :: cs) = 1 :: wsWaits 2 cs) := by
  refine ⟨fun n => ?_, fun cs w hw => wsWaits_le cs 1 (by omega) w hw, fun b cs => ?_⟩
  · have h := wsWaits_all_fail n 0
    simpa using h
  · show (wsIter b true).1 :: wsWaits (wsIter b true).2 cs = 1 :: wsWaits 2 cs
    norm_num [wsIter]

/-- Witness for C6: seven consecutive failures from a fresh backoff wait
1, 2, 4, 8, 16, 30, 30 seconds; the wait 16 observed in that run is at
most 30; after a successful reconnection the next wait is 1 second. -/
theorem c6_witness :
    wsWaits 1 (List.replicate 7 false) = [1, 2, 4, 8, 16, 30, 30] ∧
    16 ≤ 30 ∧
    wsWaits 7 [true] = [1] := by
  refine ⟨(c6_backoff_doubles_capped.1 7).trans (by decide), ?_, ?_⟩
  · have hmem : 16 ∈ wsWaits 1 (List.replicate 7 false) := by
      rw [c6_backoff_doubles_capped.1 7]
      decide
    exact c6_backoff_doubles_capped.2.1 (List.replicate 7 false) 16 hmem
  · exact (c6_backoff_doubles_capped.2.2 7 []).trans rfl

/-- Counterexample to claim C2: on a connection delivering a malformed
message and then a well-formed one, the session emits nothing and ends
with the parse exception; the well-formed successor message — which on its
own yields exactly one tick — is never processed.  Parse failure does not
let processing continue on the same connection. -/
theorem c2_counterexample :
    runSession 0 (fun _ => "") (fun _ => .ok ()) [RawMsg.badJson, goodMsg] =
      ([], some PyErr.valueError) ∧
    runSession 0 (fun _ => "") (fun _ => .ok ()) [goodMsg] = ([goodTick], none) := by
  constructor
  · rfl
  · with_unfolding_all rfl

/-- Claim C2 amended: a message that fails to parse is dropped without any
partial tick reaching the sink, but the parse exception escapes the
message loop: the session over that connection ends at once (the outer
loop treats it as a disconnect and reconnects after the backoff wait), and
no subsequent message of the same connection is processed. -/
theorem c2_amended_parse_failure_disconnects
    (now : ℤ) (isoFn : ℤ → String) (sink : Tick → Except PyErr Unit)
    (m : RawMsg) (ms : List RawMsg) (e : PyErr)
    (hm : parseTrade now isoFn m = .error e) :
    runSession now isoFn sink (m :: ms) = ([], some e) := by
  show (match parseTrade now isoFn m with
    | .error e => (([] : List Tick), some e)
    | .ok t =>
        match sink t with
        | .error e => ([t], some e)
        | .ok _ =>
            let r := runSession now isoFn sink ms
            (t :: r.1, r.2)) = ([], some e)
  rw [hm]

/-- Witness for C2 amended: a message with a missing price field raises
TypeError from float(None); the session delivering it first emits nothing
and ends with that exception, leaving the later well-formed message
unprocessed. -/
theorem c2_witness :
    runSession 5 (fun _ => "") (fun _ => .ok ()) [noPriceMsg, goodMsg] =
      ([], some PyErr.typeError) :=
  c2_amended_parse_failure_disconnects 5 (fun _ => "") (fun _ => .ok ())
    noPriceMsg [goodMsg] PyErr.typeError rfl

/-- Counterexample to claim C1: in a cycle over two enabled rules where
evaluating the first raises, the cycle ends with the caught exception and
no events — although the second rule, evaluated on its own, appends one
event.  The remaining enabled rule of the cycle is therefore not
evaluated. -/
theorem c1_counterexample :
    runRules envBoom 0 [ruleBoom, ruleOk] = ([], some PyErr.indexError) ∧
    (runRules envBoom 0 [ruleOk]).1.length = 1 := by
  constructor
  · with_unfolding_all rfl
  · with_unfolding_all rfl

/-- Claim C1 amended: an exception raised while evaluating a rule is
caught and logged at cycle level and the loop continues — every cycle
yields a result, so the cycle after a failing one still runs — but the
try/except wraps the whole pass over the rules, not each rule: when a rule
raises, the remaining rules of that cycle are skipped, not evaluated
(events appended before the failure persist). -/
theorem c1_amended_cycle_level_catch :
    (∀ cycles, (alert_loop cycles).length = cycles.length) ∧
    (∀ env now r rs e, evalRule env now r = .error e →
      runRules env now (r :: rs) = ([], some e)) := by
  constructor
  · intro cycles; simp [alert_loop]
  · intro env now r rs e h
    show (match evalRule env now r with
      | .error e => (([] : List AlertEvent), some e)
      | .ok evs =>
          let rest := runRules env now rs
          (evs ++ rest.1, rest.2)) = ([], some e)
    rw [h]

/-- Witness for C1 amended: a two-cycle run yields two cycle results, and
the concrete failing cycle of the counterexample environment stops at the
raising rule. -/
theorem c1_witness :
    (alert_loop [(envBoom, [ruleBoom, ruleOk], 0), (envBoom, [ruleOk], 1)]).length = 2 ∧
    runRules envBoom 0 [ruleBoom, ruleOk] = ([], some PyErr.indexError) :=
  ⟨c1_amended_cycle_level_catch.1 _,
    c1_amended_cycle_level_catch.2 envBoom 0 ruleBoom [ruleOk] PyErr.indexError
      (by with_unfolding_all rfl)⟩

/-- Claim C4: in a cycle, an enabled rule whose analytics call succeeds
with a stats dict appends exactly one alert event when the latest z-score
is strictly greater than the rule threshold under the one-sided float
comparison fvGt, and no event otherwise; the message of the event is the
alert f-string of the rule name, the three-decimal z-score and the
threshold. -/
theorem c4_alert_condition
    (env : Rule → Except PyErr StatsRes) (now : ℤ) (r : Rule)
    (β ls : ℚ) (z lc : FV) (n : ℕ)
    (henv : env r = .ok (.stats β ls z lc n)) (hen : r.enabled = true) :
    runRules env now [r] =
      ((if fvGt z r.threshold then
          [{ ruleId := r.id, ts_ms := now,
             message := alertMessage r.name z r.threshold }]
        else []), none) := by
  have hr : evalRule env now r =
      .ok (if fvGt z r.threshold then
        [{ ruleId := r.id, ts_ms := now,
           message := alertMessage r.name z r.threshold }]
      else []) := by
    unfold evalRule
    rw [hen, henv]
    by_cases hz : fvGt z r.threshold <;> simp [hz]
  show (match evalRule env now r with
    | .error e => (([] : List AlertEvent), some e)
    | .ok evs =>
        let rest := runRules env now ([] : List Rule)
        (evs ++ rest.1, rest.2)) = _
  rw [hr]
  by_cases hz : fvGt z r.threshold <;> simp [hz, runRules]

/-- Witness for C4: with threshold 2.0, a latest z-score of 2.5 appends
exactly one event whose message embeds the rule name, the z-score printed
as 2.500 and the threshold printed as 2.0; a z-score of 1.0 appends
nothing; the comparison is one-sided, so a z-score of -3.0 (with magnitude
above the threshold) also appends nothing. -/
theorem c4_witness :
    runRules (envZ (.num (5 / 2))) 0 [ruleT] =
      ([{ ruleId := 3, ts_ms := 0,
          message := "ALERT: pair | zscore=2.500 > 2.0" }], none) ∧
    runRules (envZ (.num 1)) 0 [ruleT] = ([], none) ∧
    runRules (envZ (.num (-3))) 0 [ruleT] = ([], none) := by
  refine ⟨?_, ?_, ?_⟩
  · exact (c4_alert_condition (envZ (.num (5 / 2))) 0 ruleT 1 0 (.num (5 / 2)) (.num 1) 40
      rfl rfl).trans (by with_unfolding_all rfl)
  · exact (c4_alert_condition (envZ (.num 1)) 0 ruleT 1 0 (.num 1) (.num 1) 40
      rfl rfl).trans (by with_unfolding_all rfl)
  · exact (c4_alert_condition (envZ (.num (-3))) 0 ruleT 1 0 (.num (-3)) (.num 1) 40
      rfl rfl).trans (by with_unfolding_all rfl)

/-- Claim C5: when the inner-joined row count is below max(30, window+5),
compute_pairs_analytics returns the insufficient-data dict and no table —
a normal return value, not an exception — and never reaches the
regression. -/
theorem c5_insufficient_guard
    (logQ sqrtQ : ℚ → ℚ) (barsA barsB : List BarRow) (w : ℕ)
    (h : (innerJoin barsA barsB).length < max 30 (w + 5)) :
    compute_pairs_analytics logQ sqrtQ barsA barsB w = .ok (.insufficient, none) := by
  unfold compute_pairs_analytics
  rw [if_pos h]

/-- Witness for C5: two empty bar series join to zero rows, below the
threshold 65 for window 60, and compute returns the insufficient-data
value. -/
theorem c5_witness :
    compute_pairs_analytics id id [] [] 60 = .ok (.insufficient, none) :=
  c5_insufficient_guard id id [] [] 60 (by decide)

/-- Claim C7 at the code: adf_test_on_spread has no insufficient-data
result — when adfuller rejects the dropna-ed input as too short, the
exception propagates out of adf_test_on_spread unhandled; when adfuller
succeeds, the statistic, p-value, used lag, observation count and critical
values are returned.  The InsufficientData half of the claim fails on the
code. -/
theorem c7_adf_propagates
    (adfullerF : List ℚ → Except PyErr ADFRaw) (spread : List (Option ℚ)) :
    (∀ e, adfullerF (dropnaQ spread) = .error e →
      adf_test_on_spread adfullerF spread = .error e) ∧
    (∀ r, adfullerF (dropnaQ spread) = .ok r →
      adf_test_on_spread adfullerF spread =
        .ok { adf_stat := r.stat, p_value := r.pvalue, used_lag := r.usedLag,
              nobs := r.nobs, crit_values := r.crit }) := by
  constructor
  · intro e h; simp [adf_test_on_spread, h, Except.map]
  · intro r h; simp [adf_test_on_spread, h, Except.map]

/-- Witness for C7: a three-point spread is below any usable ADF sample
size; the modelled adfuller raises ValueError on it and adf_test_on_spread
propagates the exception instead of returning an insufficient-data value,
while a 12-point spread goes through and yields the result fields. -/
theorem c7_witness :
    adf_test_on_spread adfullerModel [some 0, some 1, none, some 0] =
      .error PyErr.valueError ∧
    adf_test_on_spread adfullerModel ((List.range 12).map (fun i => some (i : ℚ))) =
      .ok { adf_stat := 0, p_value := 1, used_lag := 0, nobs := 12, crit_values := [] } := by
  constructor
  · exact (c7_adf_propagates adfullerModel [some 0, some 1, none, some 0]).1
      PyErr.valueError (by with_unfolding_all rfl)
  · exact (c7_adf_propagates adfullerModel ((List.range 12).map (fun i => some (i : ℚ)))).2
      { stat := 0, pvalue := 1, usedLag := 0, nobs := 12, crit := [] }
      (by with_unfolding_all rfl)

/-- Claim C8 at the failing input: on an empty tick row set, _ticks_to_df
builds a frame with the default RangeIndex, and resample raises TypeError
on it — the pipeline raises instead of returning an empty bar sequence —
while one tick resamples to one bar without error. -/
theorem c8_empty_ticks_raise :
    ticksToBars ("1min") [] = .error PyErr.typeError ∧
    ticksToBars ("1min") [{ ts_ms := 61000, ts_iso := "", price := 10, size := 3 }] =
      .ok [{ ts := 60000, o := 10, hi := 10, lo := 10, c := 10, volume := 3 }] := by
  constructor
  · rfl
  · with_unfolding_all rfl

/-- Claim C3 at the failing input: barsAff is an exact affine image of
barsLin, so under log = id the OLS fit is perfect, the spread is the
constant 2, the rolling std is 0 at every full window, every zscore is
NaN, the final table after dropna is empty — and compute_pairs_analytics
raises IndexError at out.iloc[-1] instead of returning the
insufficient-data result value. -/
theorem c3_empty_final_table_raises :
    compute_pairs_analytics id id barsAff barsLin 30 = .error PyErr.indexError := by
  with_unfolding_all rfl

/-- Helper: the population variance of a list is nonnegative. -/
theorem popVar_nonneg (l : List ℚ) : 0 ≤ popVar l := by
  unfold popVar
  apply div_nonneg
  · apply List.sum_nonneg
    intro x hx
    simp only [List.mem_map] at hx
    obtain ⟨y, _, rfl⟩ := hx
    positivity
  · exact_mod_cast Nat.zero_le _

/-- Helper: a vanishing sum of squared deviations forces every element to
equal the reference value. -/
theorem sum_sq_dev_eq_zero {l : List ℚ} {m : ℚ}
    (h : (l.map (fun x => (x - m) ^ 2)).sum = 0) : ∀ x ∈ l, x = m := by
  induction l with
  | nil => intro x hx; simp at hx
  | cons y ys ih =>
      rw [List.map_cons, List.sum_cons] at h
      have h1 : 0 ≤ (y - m) ^ 2 := sq_nonneg _
      have h2 : 0 ≤ (ys.map (fun x => (x - m) ^ 2)).sum := by
        apply List.sum_nonneg
        intro x hx
        simp only [List.mem_map] at hx
        obtain ⟨z, _, rfl⟩ := hx
        exact sq_nonneg _
      have h3 : (y - m) ^ 2 = 0 := by nlinarith
      have h4 : (ys.map (fun x => (x - m) ^ 2)).sum = 0 := by nlinarith
      intro x hx
      rcases List.mem_cons.mp hx with rfl | hx
      · have h5 := (pow_eq_zero_iff (two_ne_zero)).mp h3
        linarith [sub_eq_zero.mp h5]
      · exact ih h4 x hx

/-- Helper: zero population variance means every element equals the mean. -/
theorem popVar_eq_zero_forall {l : List ℚ} (h : popVar l = 0) :
    ∀ x ∈ l, x = meanQ l := by
  cases l with
  | nil => intro x hx; simp at hx
  | cons y ys =>
      unfold popVar at h
      rw [div_eq_zero_iff] at h
      rcases h with h | h
      · exact sum_sq_dev_eq_zero h
      · exfalso
        have hy : (0 : ℚ) < (ys.length : ℚ) + 1 := by positivity
        rw [List.length_cons] at h
        push_cast at h
        linarith

/-- Helper: for a full window at a valid position, the series value at
that position belongs to the window. -/
theorem getD_mem_windowAt {w t : ℕ} {xs : List ℚ} (hw : 1 ≤ w)
    (ht : t < xs.length) (hfull : w ≤ t + 1) :
    xs.getD t 0 ∈ windowAt w xs t := by
  have hlen1 : (xs.take (t + 1)).length = t + 1 := by
    rw [List.length_take]
    omega
  have hlen2 : w - 1 < (windowAt w xs t).length := by
    unfold windowAt
    rw [List.length_drop, hlen1]
    omega
  have hlen3 : t + 1 - w + (w - 1) < (xs.take (t + 1)).length := by omega
  have hlen4 : t + 1 - w + (w - 1) < xs.length := by omega
  have hidx : (windowAt w xs t).get ⟨w - 1, hlen2⟩ = xs.getD t 0 := by
    show (windowAt w xs t)[w - 1] = xs.getD t 0
    unfold windowAt
    rw [List.getElem_drop, List.getElem_take, List.getD_eq_getElem xs 0 (by omega)]
    congr 1
    omega
  have hmem := List.get_mem (windowAt w xs t) (w - 1) hlen2
  rw [hidx] at hmem
  exact hmem

/-- Helper: the zscore column never holds an infinity: the variance of the
window is nonnegative, a positive variance gives a finite quotient, and a
zero variance makes the numerator vanish too (each window value equals the
mean), giving 0/0 = NaN. -/
theorem zscoreAt_not_inf (sqrtQ : ℚ → ℚ) (h0 : sqrtQ 0 = 0)
    (hpos : ∀ q : ℚ, 0 < q → sqrtQ q ≠ 0) (w : ℕ) (xs : List ℚ) (t : ℕ)
    (ht : t < xs.length) :
    zscoreAt sqrtQ w xs t ≠ FV.pinf ∧ zscoreAt sqrtQ w xs t ≠ FV.ninf := by
  unfold zscoreAt
  split
  · simp
  · rename_i hcond
    push_neg at hcond
    obtain ⟨hw0, hfull⟩ := hcond
    rcases lt_or_eq_of_le (popVar_nonneg (windowAt w xs t)) with hv | hv
    · have hs : sqrtQ (popVar (windowAt w xs t)) ≠ 0 := hpos _ hv
      simp only [fdiv, if_pos hs]
      simp
    · have hvz : popVar (windowAt w xs t) = 0 := hv.symm
      have hall := popVar_eq_zero_forall hvz
      have hmem := getD_mem_windowAt (by omega) ht hfull
      have hnum : xs.getD t 0 - meanQ (windowAt w xs t) = 0 := by
        rw [← hall _ hmem]
        ring
      rw [hvz, h0, hnum]
      simp [fdiv]

/-- Helper: the table a successful compute_pairs_analytics returns is the
dropna of the full joined-and-extended table for some regression slope. -/
theorem compute_table_shape (logQ sqrtQ : ℚ → ℚ) (barsA barsB : List BarRow)
    (w : ℕ) (st : StatsRes) (out : List OutRow)
    (h : compute_pairs_analytics logQ sqrtQ barsA barsB w = .ok (st, some out)) :
    ∃ β, out = dropnaRows (allRows logQ sqrtQ (innerJoin barsA barsB) β w) := by
  simp only [compute_pairs_analytics] at h
  split at h
  · simp at h
  · split at h
    · exact absurd h (by simp)
    · rename_i β hols
      split at h
      · exact absurd h (by simp)
      · rename_i last hlast
        simp only [Except.ok.injEq, Prod.mk.injEq] at h
        obtain ⟨hst, htbl⟩ := h
        rw [Option.some.injEq] at htbl
        exact ⟨β, htbl.symm⟩

/-- Helper: each row of the pre-dropna table carries the zscore of its own
position over the spread series. -/
theorem allRows_zscore (logQ sqrtQ : ℚ → ℚ) (df : List JoinRow) (β : ℚ) (w : ℕ)
    (r : OutRow) (hr : r ∈ allRows logQ sqrtQ df β w) :
    ∃ t, t < (spreadSeries logQ β df).length ∧
      r.zscore = zscoreAt sqrtQ w (spreadSeries logQ β df) t := by
  simp only [allRows, List.mem_map, List.mem_range] at hr
  obtain ⟨t, htlt, rfl⟩ := hr
  refine ⟨t, ?_, rfl⟩
  simp [spreadSeries, htlt]

/-- Helper: a row surviving dropna is a pre-dropna row whose zscore is not
NaN. -/
theorem mem_dropnaRows {rows : List OutRow} {r : OutRow}
    (h : r ∈ dropnaRows rows) : r ∈ rows ∧ r.zscore ≠ FV.nan := by
  unfold dropnaRows at h
  rw [List.mem_filter] at h
  refine ⟨h.1, ?_⟩
  have h2 := h.2
  simp only [Bool.and_eq_true, Bool.not_eq_true', beq_eq_false_iff_ne, ne_eq] at h2
  exact h2.1

/-- Claim C9: at a window position where the rolling population std of the
spread is exactly zero, every spread value in the window equals the
rolling mean, so the z-score there is the NaN of 0/0 — never ±inf — and
such rows are removed by the dropna: every row of the table a successful
compute_pairs_analytics returns carries a finite zscore, so the latest
z-score the alert evaluator reads (taken from the last row) is finite.
The zero-variance policy is drop-the-row, consistently for the analytics
output and the alert path. -/
theorem c9_zero_variance_drops_row
    (sqrtQ : ℚ → ℚ) (h0 : sqrtQ 0 = 0) (hpos : ∀ q : ℚ, 0 < q → sqrtQ q ≠ 0)
    (w : ℕ) (hw : 1 ≤ w) (xs : List ℚ) (t : ℕ) (ht : t < xs.length)
    (hfull : w ≤ t + 1) (hvar : popVar (windowAt w xs t) = 0) :
    (∀ x ∈ windowAt w xs t, x = meanQ (windowAt w xs t)) ∧
    zscoreAt sqrtQ w xs t = FV.nan ∧
    (∀ logQ barsA barsB st out,
      compute_pairs_analytics logQ sqrtQ barsA barsB w = .ok (st, some out) →
      ∀ r ∈ out, r.zscore.isNum = true) := by
  have hall := popVar_eq_zero_forall hvar
  refine ⟨hall, ?_, ?_⟩
  · unfold zscoreAt
    rw [if_neg (by omega)]
    have hmem := getD_mem_windowAt hw ht hfull
    have hnum : xs.getD t 0 - meanQ (windowAt w xs t) = 0 := by
      rw [← hall _ hmem]
      ring
    rw [hvar, h0, hnum]
    simp [fdiv]
  · intro logQ barsA barsB st out hc r hrout
    obtain ⟨β, rfl⟩ := compute_table_shape logQ sqrtQ barsA barsB w st out hc
    obtain ⟨hrows, hnan⟩ := mem_dropnaRows hrout
    obtain ⟨t0, ht0, hz⟩ :=
      allRows_zscore logQ sqrtQ (innerJoin barsA barsB) β w r hrows
    have hni := zscoreAt_not_inf sqrtQ h0 hpos w
      (spreadSeries logQ β (innerJoin barsA barsB)) t0 ht0
    rw [hz] at hnan ⊢
    rcases hcase : zscoreAt sqrtQ w (spreadSeries logQ β (innerJoin barsA barsB)) t0 with
      q | _ | _ | _
    · rfl
    · exact absurd hcase hni.1
    · exact absurd hcase hni.2
    · exact absurd hcase hnan

/-- Witness for C9: with sqrt = id on a constant spread series of length
35, the full window at position 29 has zero variance and the zscore there
evaluates to NaN. -/
theorem c9_witness :
    zscoreAt id 30 (List.replicate 35 (2 : ℚ)) 29 = FV.nan := by
  have h := c9_zero_variance_drops_row id rfl (fun q hq => ne_of_gt hq) 30 (by omega)
    (List.replicate 35 (2 : ℚ)) 29 (by decide) (by omega) (by with_unfolding_all rfl)
  exact h.2.1

/-- Counterexample to claim C10: compute_pairs_analytics does not return a
pair on every input — with two constant close series (35 rows each) the
constant log-price column makes add_constant skip the intercept and
model.params[1] raises IndexError, so no (stats, table) pair is
returned. -/
theorem c10_counterexample :
    compute_pairs_analytics id id barsConstA barsConstB 30 = .error PyErr.indexError := by
  with_unfolding_all rfl

/-- Claim C10 amended: whenever compute_pairs_analytics returns (rather
than raising), the returned pair has table = None exactly when stats is
the insufficient-data dict; and when a table is present, stats holds the
row count n = len(table) and its latest spread, zscore and corr are the
fields of the last row of the table. -/
theorem c10_return_invariant
    (logQ sqrtQ : ℚ → ℚ) (barsA barsB : List BarRow) (w : ℕ)
    (st : StatsRes) (tbl : Option (List OutRow))
    (h : compute_pairs_analytics logQ sqrtQ barsA barsB w = .ok (st, tbl)) :
    (tbl = none ↔ st = .insufficient) ∧
    (∀ out, tbl = some out →
      ∃ β last, out.getLast? = some last ∧
        st = .stats β last.spread last.zscore last.rolling_corr out.length) := by
  simp only [compute_pairs_analytics] at h
  split at h
  · simp only [Except.ok.injEq, Prod.mk.injEq] at h
    obtain ⟨hst, htbl⟩ := h
    rw [← hst, ← htbl]
    constructor
    · simp
    · intro out hout
      simp at hout
  · split at h
    · exact absurd h (by simp)
    · rename_i β hols
      split at h
      · exact absurd h (by simp)
      · rename_i last hlast
        simp only [Except.ok.injEq, Prod.mk.injEq] at h
        obtain ⟨hst, htbl⟩ := h
        rw [← hst, ← htbl]
        constructor
        · simp
        · intro out hout
          rw [Option.some.injEq] at hout
          refine ⟨β, last, ?_, ?_⟩
          · rw [← hout]
            exact hlast
          · rw [← hout]

/-- Witness for C10 amended: on two wiggly 35-row inputs compute succeeds,
and the returned pair satisfies the invariant. -/
theorem c10_witness :
    ∃ st tbl, compute_pairs_analytics id id barsW1 barsW2 30 = .ok (st, tbl) ∧
      ((tbl = none ↔ st = .insufficient) ∧
      (∀ out, tbl = some out →
        ∃ β last, out.getLast? = some last ∧
          st = .stats β last.spread last.zscore last.rolling_corr out.length)) := by
  obtain ⟨v, hv⟩ := isOkE_exists
    (x := compute_pairs_analytics id id barsW1 barsW2 30) (by with_unfolding_all rfl)
  obtain ⟨st, tbl⟩ := v
  exact ⟨st, tbl, hv, c10_return_invariant id id barsW1 barsW2 30 st tbl hv⟩

end TraderMVP
